import Mathlib

/-!
Shallow embedding of `migrate.py` (NeCTAR advanced-networking-migration).

The script inspects an OpenStack tenant, classifies its network resources
against a legacy SDN backend (provider type `midonet`) and toggles the
project tag `legacy-networking`.  Cloud state is modelled as a `Cloud`
record; every function of the script becomes a Lean function over `Cloud`.
Functions that talk to the cloud are instrumented with an event trace
(`List Event`) recording queries, prints and tag mutations, and fallible
calls return `Except PyErr`.
-/

namespace Migrate

/-- `NAME_MIDONET` from migrate.py. -/
def NAME_MIDONET : String := "legacy"

/-- `NAME_OVN` from migrate.py. -/
def NAME_OVN : String := "modern"

/-- `CACHE_TIMEOUT` from migrate.py. -/
def CACHE_TIMEOUT : String := "2 minutes"

/-- `TAG_LEGACY` from migrate.py. -/
def TAG_LEGACY : String := "legacy-networking"

/-- Keystone project: name plus mutable list of string tags. -/
structure Project where
  name : String
  tags : List String
deriving DecidableEq, Repr

/-- Neutron network, with the fields migrate.py reads. -/
structure Network where
  net_id : String
  name : String
  provider_network_type : String
  is_router_external : Bool
  tags : List String
  project_id : String
deriving DecidableEq, Repr

/-- Neutron port, with the fields used by the router-interface filter. -/
structure Port where
  port_id : String
  device_id : String
  device_owner : String
deriving DecidableEq, Repr

/-- Neutron router: `external_gateway_info`, when present, carries the
gateway network id. -/
structure Router where
  router_id : String
  name : String
  external_gateway_info : Option String
deriving DecidableEq, Repr

/-- Neutron floating IP. -/
structure FloatingIP where
  fip_id : String
  name : String
  floating_network_id : String
  port_id : Option String
deriving DecidableEq, Repr

/-- Nova server; `interface_net_ids` are the `net_id`s of its interfaces
as returned by `conn.compute.server_interfaces`. -/
structure Server where
  server_id : String
  name : String
  interface_net_ids : List String
deriving DecidableEq, Repr

/-- Outcome of `conn.get_role(\x27TenantManager\x27)`: the call may raise
`ForbiddenException`, return `None`, or return a role with an id. -/
inductive RoleLookup where
  | forbidden
  | missing
  | found (rid : String)
deriving DecidableEq, Repr

/-- Keystone role assignment (user, project, role id). -/
structure RoleAssignment where
  user : String
  project : String
  role : String
deriving DecidableEq, Repr

/-- The cloud state visible to the script.  `project` is the project the
connection is scoped to (the one `conn.identity.get_project
conn.current_project_id` returns). -/
structure Cloud where
  current_user_id : String
  current_project_id : String
  project : Project
  networks : List Network
  ports : List Port
  routers : List Router
  fips : List FloatingIP
  servers : List Server
  roleLookup : RoleLookup
  role_assignments : List RoleAssignment
deriving DecidableEq, Repr

/-- Python exceptions that migrate.py can let propagate. -/
inductive PyErr where
  | typeError (msg : String)
  | valueError (msg : String)
  | resourceNotFound
  | indexError
deriving DecidableEq, Repr

/-- Observable events of a run: the call into `check_sanity`, cloud API
queries, stdout prints, the final table, and project tag mutations. -/
inductive Event where
  | callSanity
  | query (name : String)
  | out (s : String)
  | table (rows : List (List String))
  | tagAdd (tag : String)
  | tagRemove (tag : String)
deriving DecidableEq, Repr

/-- Result of a traced, fallible computation: the value (or the exception
that propagates) together with the events emitted before returning. -/
abbrev TR (β : Type) := Except PyErr β × List Event

/-- `is_tenant_manager` from migrate.py: role lookup forbidden or missing
means no privilege; otherwise true iff a matching role assignment exists. -/
def is_tenant_manager (c : Cloud) : Bool :=
  match c.roleLookup with
  | .forbidden => false
  | .missing => false
  | .found rid =>
    !(c.role_assignments.filter (fun a =>
        a.user == c.current_user_id && a.project == c.current_project_id &&
        a.role == rid)).isEmpty

/-- Traced `is_tenant_manager`: one `get_role` query, and a
`list_role_assignments` query when the role was found. -/
def is_tenant_manager_tr (c : Cloud) : Bool × List Event :=
  match c.roleLookup with
  | .forbidden => (false, [Event.query "get_role"])
  | .missing => (false, [Event.query "get_role"])
  | .found _ =>
    (is_tenant_manager c, [Event.query "get_role", Event.query "list_role_assignments"])

/-- `is_legacy_project` from migrate.py: the legacy tag is on the current
project. -/
def is_legacy_project (c : Cloud) : Bool :=
  c.project.tags.contains TAG_LEGACY

/-- Traced `is_legacy_project`: fetches the project from keystone. -/
def is_legacy_project_tr (c : Cloud) : Bool × List Event :=
  (is_legacy_project c, [Event.query "get_project"])

/-- `conn.network.get_network` by id; `none` models `ResourceNotFound`. -/
def get_network (c : Cloud) (nid : String) : Option Network :=
  c.networks.find? (fun n => n.net_id == nid)

/-- Argument of `is_legacy_network`: a network object or an identifier. -/
inductive NetworkOrId where
  | net (n : Network)
  | ident (s : String)
deriving DecidableEq, Repr

/-- `is_legacy_network` from migrate.py, traced: resolves an identifier via
`get_network`, then compares the provider type with `midonet`. -/
def is_legacy_network_tr (c : Cloud) : NetworkOrId → TR Bool
  | .net n => (.ok (n.provider_network_type == "midonet"), [])
  | .ident s =>
    match get_network c s with
    | none => (.error .resourceNotFound, [Event.query "get_network"])
    | some n => (.ok (n.provider_network_type == "midonet"), [Event.query "get_network"])

/-- Privilege message printed by `check_sanity`. -/
def privMsgMigrate : String :=
  "You do not have sufficient privileges to migrate the project. " ++
  "You need the \x27TenantManager\x27 role on this project"

/-- Consistency-drift message printed by `check_sanity`. -/
def waitSanityMsg : String :=
  "Project networking may have been recently switched. " ++
  "Please wait for " ++ CACHE_TIMEOUT ++ " and try again."

/-- The query `conn.network.networks(is_router_external=True,
tags=\x27nectar:floating\x27)` underlying `check_sanity`. -/
def external_floating_networks (c : Cloud) : List Network :=
  c.networks.filter (fun n =>
    n.is_router_external && n.tags.contains "nectar:floating")

/-- `check_sanity` from migrate.py, traced.  Privilege first; then the
first tagged external network is compared against the project tag.  An
empty network list makes `list(...)[0]` raise `IndexError`. -/
def check_sanity_tr (c : Cloud) : TR Bool :=
  let tm := is_tenant_manager_tr c
  if !tm.1 then
    (.ok false, Event.callSanity :: tm.2 ++ [Event.out privMsgMigrate])
  else
    match external_floating_networks c with
    | [] => (.error .indexError, Event.callSanity :: tm.2 ++ [Event.query "networks"])
    | n :: _ =>
      if (n.provider_network_type == "midonet") != is_legacy_project c then
        (.ok false, Event.callSanity :: tm.2 ++
          [Event.query "networks", Event.query "get_project", Event.out waitSanityMsg])
      else
        (.ok true, Event.callSanity :: tm.2 ++
          [Event.query "networks", Event.query "get_project"])

/-- Python generator object, as returned by `conn.network.networks(...)`:
it supports iteration but not subscripting. -/
structure PyGenerator (α : Type) where
  items : List α
deriving DecidableEq, Repr

/-- `list(gen)` in Python. -/
def PyGenerator.toPyList {α : Type} (g : PyGenerator α) : List α := g.items

/-- `gen[i]` in Python: generators define no `__getitem__`, so subscripting
one raises `TypeError` unconditionally. -/
def PyGenerator.getitem {α : Type} (_ : PyGenerator α) (_ : Nat) : Except PyErr α :=
  .error (.typeError "\x27generator\x27 object is not subscriptable")

/-- The generator returned by
`conn.network.networks(is_router_external=True)`. -/
def external_networks_gen (c : Cloud) : PyGenerator Network :=
  ⟨c.networks.filter (fun n => n.is_router_external)⟩

/-- `check_sync` from migrate.py.  The source subscripts the generator
returned by `conn.network.networks(is_router_external=True)` directly
(`[0]`, without wrapping it in `list` as `check_sanity` does), so the
subscript raises before any comparison can happen. -/
def check_sync (c : Cloud) : Except PyErr Bool :=
  match (external_networks_gen c).getitem 0 with
  | .error e => .error e
  | .ok n =>
    .ok ((n.provider_network_type == "midonet") == is_legacy_project c)

/-- Tagged union of the resource objects migrate.py classifies;
`otherRes` stands for any other `openstack.resource.Resource` subclass
(carrying its `resource_key`, id and name). -/
inductive Resource where
  | network (n : Network)
  | router (r : Router)
  | floatingip (f : FloatingIP)
  | server (s : Server)
  | otherRes (key : String) (rid : String) (rname : String)
deriving DecidableEq, Repr

/-- `resource_key` attribute of a resource object. -/
def Resource.resource_key : Resource → String
  | .network _ => "network"
  | .router _ => "router"
  | .floatingip _ => "floatingip"
  | .server _ => "server"
  | .otherRes k _ _ => k

/-- `id` attribute of a resource object. -/
def Resource.res_id : Resource → String
  | .network n => n.net_id
  | .router r => r.router_id
  | .floatingip f => f.fip_id
  | .server s => s.server_id
  | .otherRes _ i _ => i

/-- `name` attribute of a resource object. -/
def Resource.res_name : Resource → String
  | .network n => n.name
  | .router r => r.name
  | .floatingip f => f.name
  | .server s => s.name
  | .otherRes _ _ nm => nm

/-- A dynamically typed value fed to the classification layer: either a
cloud resource object or some other Python value (carrying the name of
its type, for the error message). -/
inductive PyValue where
  | res (r : Resource)
  | other (tyName : String)
deriving DecidableEq, Repr

/-- `PrettyFIP._get_recommendation`, traced. -/
def PrettyFIP.get_recommendation_tr (c : Cloud) (f : FloatingIP) : TR (Option String) :=
  match is_legacy_network_tr c (.ident f.floating_network_id) with
  | (.error e, ev) => (.error e, ev)
  | (.ok true, ev) =>
    (.ok (some (if f.port_id.isNone then "Unused, Delete" else "Replace")), ev)
  | (.ok false, ev) => (.ok none, ev)

/-- `PrettyNetwork._get_recommendation`, traced (the object itself is
passed to `is_legacy_network`, so no query happens). -/
def PrettyNetwork.get_recommendation_tr (c : Cloud) (n : Network) : TR (Option String) :=
  match is_legacy_network_tr c (.net n) with
  | (.error e, ev) => (.error e, ev)
  | (.ok b, ev) => (.ok (if b then some "Replace" else none), ev)

/-- The `conn.network.ports(device_id=..., device_owner=...)` filter used
by the router classifier. -/
def router_interfaces (c : Cloud) (r : Router) : List Port :=
  c.ports.filter (fun p =>
    p.device_id == r.router_id && p.device_owner == "network:router_interface")

/-- `PrettyRouter._get_recommendation`, traced: no interface ports means
delete, no gateway means no recommendation, a legacy gateway network
means replace. -/
def PrettyRouter.get_recommendation_tr (c : Cloud) (r : Router) : TR (Option String) :=
  if (router_interfaces c r).length == 0 then
    (.ok (some "No networks attached, Delete"), [Event.query "ports"])
  else
    match r.external_gateway_info with
    | none => (.ok none, [Event.query "ports"])
    | some nid =>
      match is_legacy_network_tr c (.ident nid) with
      | (.error e, ev) => (.error e, Event.query "ports" :: ev)
      | (.ok b, ev) =>
        (.ok (if b then some "Replace" else none), Event.query "ports" :: ev)

/-- The loop body of `PrettyServer._get_recommendation`: resolve each
interface network and collect the names of the legacy ones. -/
def collect_legacy_tr (c : Cloud) : List String → TR (List String)
  | [] => (.ok [], [])
  | nid :: rest =>
    match get_network c nid with
    | none => (.error .resourceNotFound, [Event.query "get_network"])
    | some n =>
      match collect_legacy_tr c rest with
      | (.error e, ev) => (.error e, Event.query "get_network" :: ev)
      | (.ok names, ev) =>
        (.ok (if n.provider_network_type == "midonet" then n.name :: names else names),
         Event.query "get_network" :: ev)

/-- `PrettyServer._get_recommendation`, traced. -/
def PrettyServer.get_recommendation_tr (c : Cloud) (s : Server) : TR (Option String) :=
  match collect_legacy_tr c s.interface_net_ids with
  | (.error e, ev) => (.error e, Event.query "server_interfaces" :: ev)
  | (.ok names, ev) =>
    (.ok (if names.isEmpty then none
          else some ("Switch to " ++ NAME_OVN ++ " network")),
     Event.query "server_interfaces" :: ev)

/-- Dispatch of `_get_recommendation` over the concrete classifier class.
The `otherRes` case is only reachable when an object spoofs one of the
four recognised `resource_key`s without being of that type; attribute
access then fails inside the classifier. -/
def Resource.get_recommendation_tr (c : Cloud) : Resource → TR (Option String)
  | .network n => PrettyNetwork.get_recommendation_tr c n
  | .router r => PrettyRouter.get_recommendation_tr c r
  | .floatingip f => PrettyFIP.get_recommendation_tr c f
  | .server s => PrettyServer.get_recommendation_tr c s
  | .otherRes k _ _ =>
    (.error (.typeError ("object with resource_key " ++ k ++
      " does not match its classifier")), [])

/-- The `{type, id, name, recommendation}` shape shared by the four
`PrettyResource` variants. -/
structure PrettyRes where
  type : String
  rid : String
  rname : String
  recommendation : Option String
deriving DecidableEq, Repr

/-- Python `str.capitalize` for the ASCII strings used here: first char
uppercased, the rest lowercased. -/
def pyCapitalize (s : String) : String :=
  match s.data with
  | [] => ""
  | ch :: rest => String.mk (ch.toUpper :: rest.map Char.toLower)

/-- The `isinstance` guard shared by `PrettyResource.__init__` and
`_resource_to_prettyresource`: a non-resource value raises `TypeError`. -/
def PrettyResource.initCheck : PyValue → Except PyErr Resource
  | .other ty =>
    .error (.typeError ("Expected openstack.resource.Resource, got " ++ ty))
  | .res r => .ok r

/-- The `_query_map` keys of `_resource_to_prettyresource`. -/
def query_map_keys : List String := ["floatingip", "network", "router", "server"]

/-- `_resource_to_prettyresource` from migrate.py, traced: `TypeError` for
a non-resource value, `ValueError` for an unrecognised `resource_key`,
otherwise the classifier runs and the resulting object carries
`resource_key.capitalize()`, id, name and the recommendation. -/
def resource_to_prettyresource_tr (c : Cloud) : PyValue → TR PrettyRes
  | .other ty =>
    (.error (.typeError ("Expected openstack.resource.Resource, got " ++ ty)), [])
  | .res r =>
    if query_map_keys.contains r.resource_key then
      match Resource.get_recommendation_tr c r with
      | (.error e, ev) => (.error e, ev)
      | (.ok rc, ev) =>
        (.ok ⟨pyCapitalize r.resource_key, r.res_id, r.res_name, rc⟩, ev)
    else
      (.error (.valueError ("Unknown resource type " ++ r.resource_key)), [])

/-- The list comprehension of `_resources_to_prettyrows` building one
`PrettyResource` per input value; the first exception propagates. -/
def prettyresources_tr (c : Cloud) : List PyValue → TR (List PrettyRes)
  | [] => (.ok [], [])
  | v :: rest =>
    match resource_to_prettyresource_tr c v with
    | (.error e, ev) => (.error e, ev)
    | (.ok pr, ev) =>
      match prettyresources_tr c rest with
      | (.error e, ev2) => (.error e, ev ++ ev2)
      | (.ok prs, ev2) => (.ok (pr :: prs), ev ++ ev2)

/-- Python truthiness of an optional string recommendation (`None` and
the empty string are falsy). -/
def strOptTruthy : Option String → Bool
  | none => false
  | some s => !(s == "")

/-- `PrettyResource.prettyrow`: `[type, id, name, recommendation or ""]`. -/
def prettyrow (pr : PrettyRes) : List String :=
  [pr.type, pr.rid, pr.rname, pr.recommendation.getD ""]

/-- `_resources_to_prettyrows` from migrate.py, traced: classify every
value, drop rows without a recommendation unless `all_resources`, then
render the rows. -/
def resources_to_prettyrows_tr (c : Cloud) (vs : List PyValue)
    (all_resources : Bool) : TR (List (List String)) :=
  match prettyresources_tr c vs with
  | (.error e, ev) => (.error e, ev)
  | (.ok prs, ev) =>
    let kept := if all_resources then prs
      else prs.filter (fun pr => strOptTruthy pr.recommendation)
    (.ok (kept.map prettyrow), ev)

/-- The `Networking:` banner label: legacy-name when the project is
tagged, modern-name otherwise. -/
def networking_label (c : Cloud) : String :=
  if is_legacy_project c then NAME_MIDONET else NAME_OVN

/-- One `pt.add_rows(_resources_to_prettyrows(<query>, all))` step of
`check`: on earlier failure nothing more runs, otherwise the collection
is fetched (one query event) and classified, appending its rows. -/
def addRows (c : Cloud) (acc : TR (List (List String))) (qname : String)
    (vs : List PyValue) (all_resources : Bool) : TR (List (List String)) :=
  match acc with
  | (.error e, ev) => (.error e, ev)
  | (.ok rows, ev) =>
    match resources_to_prettyrows_tr c vs all_resources with
    | (.error e, ev2) => (.error e, ev ++ Event.query qname :: ev2)
    | (.ok rows2, ev2) => (.ok (rows ++ rows2), ev ++ Event.query qname :: ev2)

/-- The non-external, project-scoped networks fetched by `check`. -/
def project_networks (c : Cloud) : List Network :=
  c.networks.filter (fun n =>
    !n.is_router_external && n.project_id == c.current_project_id)

/-- The four classification queries of `check`, in source order. -/
def check_rows_tr (c : Cloud) (all_resources : Bool) : TR (List (List String)) :=
  let r1 := addRows c (.ok [], []) "networks"
    ((project_networks c).map (fun n => PyValue.res (.network n))) all_resources
  let r2 := addRows c r1 "routers"
    (c.routers.map (fun r => PyValue.res (.router r))) all_resources
  let r3 := addRows c r2 "ips"
    (c.fips.map (fun f => PyValue.res (.floatingip f))) all_resources
  addRows c r3 "servers"
    (c.servers.map (fun s => PyValue.res (.server s))) all_resources

/-- `check` from migrate.py, traced.  Project banner, networking banner,
progress line, the four classification queries, then the composed
summary and (when rows remain) the table. -/
def check_tr (c : Cloud) (all_resources : Bool) : TR Unit :=
  let project_name := c.project.name
  let lp := is_legacy_project c
  let ev0 : List Event :=
    [Event.query "get_project", Event.out ("Project: " ++ project_name),
     Event.query "get_project", Event.out ("Networking: " ++ networking_label c),
     Event.out "Checking resources. This might take a while..."]
  match check_rows_tr c all_resources with
  | (.error e, evR) => (.error e, ev0 ++ evR)
  | (.ok rows, evR) =>
    let rowcount := rows.length
    if !lp && rowcount == 0 then
      (.ok (), ev0 ++ evR ++
        [Event.query "get_project",
         Event.out ("Congratulations! Your project is already using " ++ NAME_OVN ++
           " networking. No resources needs to be migrated.")])
    else
      let part1 := if lp then
          "Project " ++ project_name ++ " needs to switch to " ++ NAME_OVN ++
          " networking."
        else
          "Project " ++ project_name ++ " is already using " ++ NAME_OVN ++
          " networking."
      let output := if rowcount != 0 then
          part1 ++ " " ++ "The following resources needs to be migrated:"
        else part1
      let evS := ev0 ++ evR ++
        [Event.query "get_project", Event.query "get_project", Event.out output]
      (.ok (), if rowcount != 0 then evS ++ [Event.table rows] else evS)

/-- Privilege message printed by `switch`. -/
def privMsgSwitch : String :=
  "You do not have sufficient privileges to switch this project. " ++
  "You need the \x27TenantManager\x27 role on this project"

/-- `project.add_tag(...)` on the current project. -/
def Cloud.add_tag (c : Cloud) (tag : String) : Cloud :=
  { c with project := { c.project with tags := c.project.tags ++ [tag] } }

/-- `project.remove_tag(...)` on the current project. -/
def Cloud.remove_tag (c : Cloud) (tag : String) : Cloud :=
  { c with project := { c.project with tags := c.project.tags.filter (fun t => t != tag) } }

/-- `switch` from migrate.py, traced: banner, privilege check, project
fetch, then the legacy/modern branches; any other `networking` value
falls through both branches and returns silently. -/
def switch_tr (c : Cloud) (networking : String) : Cloud × List Event :=
  let banner := Event.out "Switching project networking"
  let tm := is_tenant_manager_tr c
  if !tm.1 then
    (c, banner :: tm.2 ++ [Event.out privMsgSwitch])
  else
    let evP := banner :: tm.2 ++ [Event.query "get_project"]
    if networking == NAME_MIDONET then
      if is_legacy_project c then
        (c, evP ++ [Event.query "get_project",
          Event.out ("Project is already set to " ++ NAME_MIDONET ++ " networking")])
      else
        (c.add_tag TAG_LEGACY, evP ++ [Event.query "get_project",
          Event.tagAdd TAG_LEGACY,
          Event.out ("Project set to " ++ NAME_MIDONET ++ " networking."),
          Event.out ("Please wait " ++ CACHE_TIMEOUT ++
            " for changes to propagate to all service.")])
    else if networking == NAME_OVN then
      if !is_legacy_project c then
        (c, evP ++ [Event.query "get_project",
          Event.out ("Project is already set to " ++ NAME_OVN ++ " networking")])
      else
        (c.remove_tag TAG_LEGACY, evP ++ [Event.query "get_project",
          Event.tagRemove TAG_LEGACY,
          Event.out ("Project set to " ++ NAME_OVN ++ " networking."),
          Event.out ("Please wait " ++ CACHE_TIMEOUT ++
            " for changes to propagate to all services.")])
    else
      (c, evP)

/-- The parsed CLI command (`check [--all]` or `switch {legacy|modern}`;
for `switch`, argparse restricts `networking` by `choices`, but the
function itself accepts any string). -/
inductive Command where
  | check (all_resources : Bool)
  | switch (networking : String)
deriving DecidableEq, Repr

/-- `main` from migrate.py, traced: run `check_sanity` once; on `False`
return normally without dispatching; otherwise dispatch the command. -/
def main_tr (c : Cloud) (cmd : Command) : Except PyErr Cloud × List Event :=
  match check_sanity_tr c with
  | (.error e, ev) => (.error e, ev)
  | (.ok false, ev) => (.ok c, ev)
  | (.ok true, ev) =>
    match cmd with
    | .check a =>
      match check_tr c a with
      | (.error e, ev2) => (.error e, ev ++ ev2)
      | (.ok _, ev2) => (.ok c, ev ++ ev2)
    | .switch n =>
      let r := switch_tr c n
      (.ok r.1, ev ++ r.2)

/-- The stdout lines of a trace, in order. -/
def outsOf (evs : List Event) : List String :=
  evs.filterMap (fun e => match e with | .out s => some s | _ => none)

/-! ### Concrete cloud states used to evaluate the definitions -/

/-- A legacy (midonet) tenant network. -/
def netLegacy : Network :=
  ⟨"netL", "legacy-net", "midonet", false, [], "proj1"⟩

/-- A modern (geneve) tenant network. -/
def netModern : Network :=
  ⟨"netM", "modern-net", "geneve", false, [], "proj1"⟩

/-- The modern external network carrying the `nectar:floating` tag. -/
def extFloatModern : Network :=
  ⟨"extM", "ext-modern", "geneve", true, ["nectar:floating"], "admin"⟩

/-- A cloud state whose role lookup is forbidden: no privilege. -/
def cloudNoPriv : Cloud :=
  ⟨"u1", "proj1", ⟨"demo", []⟩, [extFloatModern], [], [], [], [],
   RoleLookup.forbidden, []⟩

/-- A privileged cloud state in consistency drift: the project carries the
legacy tag but the external network is modern. -/
def cloudDrift : Cloud :=
  ⟨"u1", "proj1", ⟨"demo", [TAG_LEGACY]⟩, [extFloatModern], [], [], [], [],
   RoleLookup.found "r-tm", [⟨"u1", "proj1", "r-tm"⟩]⟩

/-- A privileged, consistent, untagged (modern) cloud state. -/
def cloudOk : Cloud :=
  ⟨"u1", "proj1", ⟨"demo", []⟩, [extFloatModern, netLegacy, netModern],
   [⟨"p1", "rtrGW", "network:router_interface"⟩,
    ⟨"p2", "rtrMod", "network:router_interface"⟩,
    ⟨"p3", "rtrNoGW", "network:router_interface"⟩],
   [], [], [], RoleLookup.found "r-tm", [⟨"u1", "proj1", "r-tm"⟩]⟩

/-- A router with no interface ports in `cloudOk`. -/
def routerEmpty : Router := ⟨"rtrE", "router-empty", some "netM"⟩

/-- A router with an interface port and a legacy external gateway. -/
def routerLegacyGW : Router := ⟨"rtrGW", "router-legacy", some "netL"⟩

/-- A router with an interface port and a modern external gateway. -/
def routerModernGW : Router := ⟨"rtrMod", "router-modern", some "netM"⟩

/-- A router with an interface port and no external gateway. -/
def routerNoGW : Router := ⟨"rtrNoGW", "router-nogw", none⟩

/-- A floating IP on the legacy network, unbound. -/
def fipUnused : FloatingIP := ⟨"fip1", "fip-unused", "netL", none⟩

/-- A floating IP on the legacy network, bound to a port. -/
def fipBound : FloatingIP := ⟨"fip2", "fip-bound", "netL", some "p9"⟩

/-- A floating IP on the modern network. -/
def fipModern : FloatingIP := ⟨"fip3", "fip-modern", "netM", some "p9"⟩

/-! ### Helper lemmas on the traces -/

/-- The trace of `is_tenant_manager_tr` is one of its two literal forms. -/
theorem tm_trace_cases (c : Cloud) :
    (is_tenant_manager_tr c).2 = [Event.query "get_role"] ∨
    (is_tenant_manager_tr c).2 =
      [Event.query "get_role", Event.query "list_role_assignments"] := by
  rcases hc : c.roleLookup <;> simp [is_tenant_manager_tr, hc]

/-- The traced privilege check returns the pure predicate. -/
theorem tm_tr_fst (c : Cloud) :
    (is_tenant_manager_tr c).1 = is_tenant_manager c := by
  rcases hc : c.roleLookup <;>
    simp [is_tenant_manager_tr, is_tenant_manager, hc]

/-- Every event of the privilege-check trace is one of its two queries. -/
theorem tm_trace_events (c : Cloud) :
    ∀ e ∈ (is_tenant_manager_tr c).2,
      e = Event.query "get_role" ∨ e = Event.query "list_role_assignments" := by
  rcases tm_trace_cases c with h | h <;> rw [h] <;> intro e he <;>
    simp at he <;> tauto

/-- The privilege check prints nothing. -/
theorem tm_trace_outs (c : Cloud) : outsOf (is_tenant_manager_tr c).2 = [] := by
  rcases tm_trace_cases c with h | h <;> rw [h] <;> rfl

/-- When the caller lacks privilege, `check_sanity` returns `False` after
the privilege message. -/
theorem sanity_of_no_tm (c : Cloud) (h : is_tenant_manager c = false) :
    check_sanity_tr c =
      (.ok false,
       Event.callSanity :: (is_tenant_manager_tr c).2 ++ [Event.out privMsgMigrate]) := by
  have h1 : (is_tenant_manager_tr c).1 = false := by rw [tm_tr_fst, h]
  simp [check_sanity_tr, h1]

/-- When `check_sanity` returns `False`, its trace has one of the two
sanity shapes. -/
theorem sanity_false_trace (c : Cloud) (h : (check_sanity_tr c).1 = .ok false) :
    (check_sanity_tr c).2 =
      Event.callSanity :: (is_tenant_manager_tr c).2 ++ [Event.out privMsgMigrate] ∨
    (check_sanity_tr c).2 =
      Event.callSanity :: (is_tenant_manager_tr c).2 ++
        [Event.query "networks", Event.query "get_project", Event.out waitSanityMsg] := by
  rcases htm : (is_tenant_manager_tr c).1 with _ | _
  · left; simp [check_sanity_tr, htm]
  · rcases hext : external_floating_networks c with _ | ⟨n, rest⟩
    · exfalso; simp [check_sanity_tr, htm, hext] at h
    · by_cases hmis :
        ((n.provider_network_type == "midonet") != is_legacy_project c) = true
      · right; simp [check_sanity_tr, htm, hext, hmis]
      · exfalso
        simp [check_sanity_tr, htm, hext, hmis] at h

/-- The privilege check never emits the sanity-call event. -/
theorem callSanity_not_tm (c : Cloud) :
    Event.callSanity ∉ (is_tenant_manager_tr c).2 := by
  rcases tm_trace_cases c with h | h <;> simp [h]

/-- `is_legacy_network_tr` never emits the sanity-call event. -/
theorem callSanity_not_iln (c : Cloud) (x : NetworkOrId) :
    Event.callSanity ∉ (is_legacy_network_tr c x).2 := by
  rcases x with n | s
  · simp [is_legacy_network_tr]
  · rcases hg : get_network c s with _ | n <;> simp [is_legacy_network_tr, hg]

/-- The server-interface loop never emits the sanity-call event. -/
theorem callSanity_not_collect (c : Cloud) (l : List String) :
    Event.callSanity ∉ (collect_legacy_tr c l).2 := by
  induction l with
  | nil => simp [collect_legacy_tr]
  | cons nid rest ih =>
    rcases hg : get_network c nid with _ | n
    · simp [collect_legacy_tr, hg]
    · rcases hr : collect_legacy_tr c rest with ⟨res, ev⟩
      rw [hr] at ih
      rcases res with e | names <;>
        simp_all [collect_legacy_tr, hg, hr]

/-- No classifier emits the sanity-call event. -/
theorem callSanity_not_rec (c : Cloud) (r : Resource) :
    Event.callSanity ∉ (Resource.get_recommendation_tr c r).2 := by
  rcases r with n | r | f | s | ⟨k, i, nm⟩
  · have := callSanity_not_iln c (.net n)
    rcases h : is_legacy_network_tr c (.net n) with ⟨res, ev⟩
    rw [h] at this
    rcases res with e | b <;>
      simp_all [Resource.get_recommendation_tr, PrettyNetwork.get_recommendation_tr, h]
  · by_cases hi : ((router_interfaces c r).length == 0) = true
    · simp [Resource.get_recommendation_tr, PrettyRouter.get_recommendation_tr, hi]
    · rcases hgw : r.external_gateway_info with _ | nid
      · simp [Resource.get_recommendation_tr, PrettyRouter.get_recommendation_tr, hi, hgw]
      · have := callSanity_not_iln c (.ident nid)
        rcases h : is_legacy_network_tr c (.ident nid) with ⟨res, ev⟩
        rw [h] at this
        rcases res with e | b <;>
          simp_all [Resource.get_recommendation_tr, PrettyRouter.get_recommendation_tr,
            hi, hgw, h]
  · have := callSanity_not_iln c (.ident f.floating_network_id)
    rcases h : is_legacy_network_tr c (.ident f.floating_network_id) with ⟨res, ev⟩
    rw [h] at this
    rcases res with e | b
    · simp_all [Resource.get_recommendation_tr, PrettyFIP.get_recommendation_tr, h]
    · rcases b <;>
        simp_all [Resource.get_recommendation_tr, PrettyFIP.get_recommendation_tr, h]
  · have := callSanity_not_collect c s.interface_net_ids
    rcases h : collect_legacy_tr c s.interface_net_ids with ⟨res, ev⟩
    rw [h] at this
    rcases res with e | names <;>
      simp_all [Resource.get_recommendation_tr, PrettyServer.get_recommendation_tr, h]
  · simp [Resource.get_recommendation_tr]

/-- The per-value classification dispatcher never emits the sanity-call
event. -/
theorem callSanity_not_r2p (c : Cloud) (v : PyValue) :
    Event.callSanity ∉ (resource_to_prettyresource_tr c v).2 := by
  rcases v with r | ty
  · by_cases hk : r.resource_key ∈ query_map_keys
    · have := callSanity_not_rec c r
      rcases h : Resource.get_recommendation_tr c r with ⟨res, ev⟩
      rw [h] at this
      rcases res with e | rc <;>
        simp_all [resource_to_prettyresource_tr, hk, h]
    · simp [resource_to_prettyresource_tr, hk]
  · simp [resource_to_prettyresource_tr]

/-- The classification comprehension never emits the sanity-call event. -/
theorem callSanity_not_prs (c : Cloud) (vs : List PyValue) :
    Event.callSanity ∉ (prettyresources_tr c vs).2 := by
  induction vs with
  | nil => simp [prettyresources_tr]
  | cons v rest ih =>
    have hv := callSanity_not_r2p c v
    rcases h : resource_to_prettyresource_tr c v with ⟨res, ev⟩
    rw [h] at hv
    rcases res with e | pr
    · simp_all [prettyresources_tr, h]
    · rcases hr : prettyresources_tr c rest with ⟨res2, ev2⟩
      rw [hr] at ih
      rcases res2 with e2 | prs <;> simp_all [prettyresources_tr, h, hr]

/-- `_resources_to_prettyrows` never emits the sanity-call event. -/
theorem callSanity_not_rows (c : Cloud) (vs : List PyValue) (a : Bool) :
    Event.callSanity ∉ (resources_to_prettyrows_tr c vs a).2 := by
  have := callSanity_not_prs c vs
  rcases h : prettyresources_tr c vs with ⟨res, ev⟩
  rw [h] at this
  rcases res with e | prs <;> simp_all [resources_to_prettyrows_tr, h]

/-- One `addRows` step preserves sanity-call absence. -/
theorem callSanity_not_addRows (c : Cloud) (acc : TR (List (List String)))
    (q : String) (vs : List PyValue) (a : Bool)
    (hacc : Event.callSanity ∉ acc.2) :
    Event.callSanity ∉ (addRows c acc q vs a).2 := by
  have hrows := callSanity_not_rows c vs a
  rcases acc with ⟨res, ev⟩
  rcases res with e | rows
  · simpa [addRows] using hacc
  · rcases h : resources_to_prettyrows_tr c vs a with ⟨res2, ev2⟩
    rw [h] at hrows
    rcases res2 with e2 | rows2 <;> simp_all [addRows, h]

/-- The four classification queries of `check` never emit the sanity-call
event. -/
theorem callSanity_not_check_rows (c : Cloud) (a : Bool) :
    Event.callSanity ∉ (check_rows_tr c a).2 := by
  unfold check_rows_tr
  apply callSanity_not_addRows
  apply callSanity_not_addRows
  apply callSanity_not_addRows
  apply callSanity_not_addRows
  simp

/-- `check` never calls `check_sanity`. -/
theorem callSanity_not_check (c : Cloud) (a : Bool) :
    Event.callSanity ∉ (check_tr c a).2 := by
  have hrows := callSanity_not_check_rows c a
  rcases h : check_rows_tr c a with ⟨res, ev⟩
  rw [h] at hrows
  rcases res with e | rows
  · simp_all [check_tr, h]
  · by_cases hz :
      (!is_legacy_project c && rows.length == 0) = true
    · simp_all [check_tr, h, hz]
    · by_cases hn : (rows.length != 0) = true <;>
        simp_all [check_tr, h, hz, hn]

/-- `switch` never calls `check_sanity`. -/
theorem callSanity_not_switch (c : Cloud) (n : String) :
    Event.callSanity ∉ (switch_tr c n).2 := by
  have htm := callSanity_not_tm c
  unfold switch_tr
  dsimp only
  repeat' split
  all_goals simp [htm]

/-- The sanity trace begins with the sanity-call event and contains no
second one. -/
theorem sanity_trace_head (c : Cloud) :
    ∃ tl, (check_sanity_tr c).2 = Event.callSanity :: tl ∧
      Event.callSanity ∉ tl := by
  have htm := callSanity_not_tm c
  unfold check_sanity_tr
  dsimp only
  repeat' split
  all_goals exact ⟨_, rfl, by simp [htm]⟩

/-- The trace of `main` is the sanity trace followed by events that never
include another sanity call. -/
theorem main_trace_split (c : Cloud) (cmd : Command) :
    ∃ tl, (main_tr c cmd).2 = (check_sanity_tr c).2 ++ tl ∧
      Event.callSanity ∉ tl := by
  unfold main_tr
  rcases hs : check_sanity_tr c with ⟨res, ev⟩
  rcases res with e | b
  · exact ⟨[], by simp⟩
  · rcases b
    · exact ⟨[], by simp⟩
    · rcases cmd with a | n
      · have hch := callSanity_not_check c a
        rcases hc : check_tr c a with ⟨res2, ev2⟩
        rw [hc] at hch
        rcases res2 with e2 | u <;> exact ⟨ev2, by simp [hc], hch⟩
      · have hsw := callSanity_not_switch c n
        rcases hw : switch_tr c n with ⟨c2, ev2⟩
        rw [hw] at hsw
        exact ⟨ev2, by simp [hw], hsw⟩

/-- When `check_sanity` returns `False`, `main` returns the unchanged
state with exactly the sanity trace. -/
theorem main_of_sanity_false (c : Cloud) (cmd : Command)
    (h : (check_sanity_tr c).1 = .ok false) :
    main_tr c cmd = (.ok c, (check_sanity_tr c).2) := by
  unfold main_tr
  rcases hs : check_sanity_tr c with ⟨res, ev⟩
  rw [hs] at h
  simp only at h
  rw [h]

/-- When `check_sanity` returns `False`, the printed lines of its trace
are exactly one sanity message. -/
theorem sanity_false_outs (c : Cloud) (h : (check_sanity_tr c).1 = .ok false) :
    outsOf (check_sanity_tr c).2 = [privMsgMigrate] ∨
    outsOf (check_sanity_tr c).2 = [waitSanityMsg] := by
  have htm := tm_trace_outs c
  rcases sanity_false_trace c h with ht | ht <;> rw [ht]
  · left
    simp only [outsOf, List.filterMap_cons, List.filterMap_append] at htm ⊢
    rw [htm]
    rfl
  · right
    simp only [outsOf, List.filterMap_cons, List.filterMap_append] at htm ⊢
    rw [htm]
    rfl

/-! ### Claim theorems -/

/-- C1: on every run of the CLI, `check_sanity` executes exactly once and
first, before either operation is dispatched; when it returns `False`,
neither operation runs: the process ends normally with the state
unchanged and the trace is exactly the sanity trace, whose only printed
line is one of the two sanity messages; and when `is_tenant_manager` is
false the whole run consists of the role queries and the privilege
message — no further cloud query and no tag mutation. -/
theorem C1_sanity_gate (c : Cloud) (cmd : Command) :
    (∃ tl, (main_tr c cmd).2 = Event.callSanity :: tl ∧ Event.callSanity ∉ tl) ∧
    ((check_sanity_tr c).1 = .ok false →
      main_tr c cmd = (.ok c, (check_sanity_tr c).2) ∧
      (outsOf (main_tr c cmd).2 = [privMsgMigrate] ∨
       outsOf (main_tr c cmd).2 = [waitSanityMsg])) ∧
    (is_tenant_manager c = false →
      main_tr c cmd =
        (.ok c,
         Event.callSanity :: (is_tenant_manager_tr c).2 ++ [Event.out privMsgMigrate]) ∧
      (∀ e ∈ (is_tenant_manager_tr c).2,
        e = Event.query "get_role" ∨ e = Event.query "list_role_assignments") ∧
      (∀ t, Event.tagAdd t ∉ (main_tr c cmd).2 ∧
            Event.tagRemove t ∉ (main_tr c cmd).2)) := by
  refine ⟨?_, ?_, ?_⟩
  · obtain ⟨tl1, h1, h1n⟩ := main_trace_split c cmd
    obtain ⟨tl0, h0, h0n⟩ := sanity_trace_head c
    rw [h0] at h1
    exact ⟨tl0 ++ tl1, by simpa using h1, by simp [h0n, h1n]⟩
  · intro h
    have hm := main_of_sanity_false c cmd h
    refine ⟨hm, ?_⟩
    rw [hm]
    exact sanity_false_outs c h
  · intro h
    have hs := sanity_of_no_tm c h
    have hfalse : (check_sanity_tr c).1 = .ok false := by rw [hs]
    have hm := main_of_sanity_false c cmd hfalse
    rw [hs] at hm
    refine ⟨hm, tm_trace_events c, ?_⟩
    intro t
    rw [hm]
    have htm := tm_trace_events c
    constructor
    · intro hmem
      simp at hmem
      rcases htm _ hmem with h2 | h2 <;> simp_all
    · intro hmem
      simp at hmem
      rcases htm _ hmem with h2 | h2 <;> simp_all

/-- C1 witness: on a cloud whose role lookup is forbidden, the whole run
of `switch legacy` is the role query plus the privilege message, with the
state unchanged. -/
theorem C1_sanity_gate_witness :
    is_tenant_manager cloudNoPriv = false ∧
    main_tr cloudNoPriv (Command.switch "legacy") =
      (.ok cloudNoPriv,
       [Event.callSanity, Event.query "get_role", Event.out privMsgMigrate]) := by
  refine ⟨rfl, ?_⟩
  rw [((C1_sanity_gate cloudNoPriv (Command.switch "legacy")).2.2 rfl).1]
  rfl

/-- C2 counterexample: on `cloudDrift` the sanity check returns `False`,
yet calling the `check` function itself still prints the project banner
and the rest of the report — the function performs no sanity check of its
own (the gate lives in `main`). -/
theorem C2_counterexample :
    (check_sanity_tr cloudDrift).1 = .ok false ∧
    Event.out ("Project: " ++ cloudDrift.project.name) ∈ (check_tr cloudDrift false).2 ∧
    (check_tr cloudDrift false).2 ≠ [] := by
  have htr : (check_tr cloudDrift false).2 =
      [Event.query "get_project", Event.out "Project: demo",
       Event.query "get_project", Event.out "Networking: legacy",
       Event.out "Checking resources. This might take a while...",
       Event.query "networks", Event.query "routers",
       Event.query "ips", Event.query "servers",
       Event.query "get_project", Event.query "get_project",
       Event.out "Project demo needs to switch to modern networking."] := rfl
  have hname : ("Project: " ++ cloudDrift.project.name) = "Project: demo" := rfl
  refine ⟨rfl, ?_, ?_⟩
  · rw [htr, hname]
    simp
  · rw [htr]
    simp

/-- C2 (amended): the sanity gate of the check operation lives in the
dispatcher, not in `check` itself: when `check_sanity` returns `False`,
the CLI check path never invokes `check`, so no report is produced — no
table event, and every printed line is one of the two sanity messages. -/
theorem C2_check_gated_in_dispatcher (c : Cloud) (a : Bool)
    (h : (check_sanity_tr c).1 = .ok false) :
    main_tr c (.check a) = (.ok c, (check_sanity_tr c).2) ∧
    (∀ rows, Event.table rows ∉ (main_tr c (.check a)).2) ∧
    (∀ s, Event.out s ∈ (main_tr c (.check a)).2 →
      s = privMsgMigrate ∨ s = waitSanityMsg) := by
  have hm := main_of_sanity_false c (.check a) h
  refine ⟨hm, ?_, ?_⟩
  · intro rows
    rw [hm]
    rcases sanity_false_trace c h with ht | ht <;> rw [ht] <;>
      rcases tm_trace_cases c with h2 | h2 <;> rw [h2] <;> simp
  · intro s hs
    rw [hm] at hs
    rcases sanity_false_trace c h with ht | ht <;> rw [ht] at hs <;>
      rcases tm_trace_cases c with h2 | h2 <;> rw [h2] at hs <;>
        simp at hs <;> tauto

/-- C2 amended-claim witness: on the drifted cloud the check command
stops at the sanity gate with the drift message only. -/
theorem C2_check_gated_in_dispatcher_witness :
    (check_sanity_tr cloudDrift).1 = .ok false ∧
    main_tr cloudDrift (Command.check true) =
      (.ok cloudDrift, (check_sanity_tr cloudDrift).2) :=
  ⟨rfl, (C2_check_gated_in_dispatcher cloudDrift true rfl).1⟩

/-- C3: `check_sync` never returns a boolean: on every cloud state,
subscripting the generator returned by the external-networks query raises
`TypeError` before any comparison happens. -/
theorem C3_check_sync_raises (c : Cloud) :
    check_sync c =
      .error (.typeError "\x27generator\x27 object is not subscriptable") := rfl

/-- C4: a router with zero interface ports is recommended exactly
"No networks attached, Delete", regardless of its gateway; with at least
one interface port, a legacy external gateway yields "Replace", a
modern gateway yields no recommendation, and no gateway yields no
recommendation. -/
theorem C4_router_recommendation (c : Cloud) (r : Router) :
    ((router_interfaces c r).length = 0 →
      (PrettyRouter.get_recommendation_tr c r).1 =
        .ok (some "No networks attached, Delete")) ∧
    ((router_interfaces c r).length ≠ 0 →
      (∀ nid n, r.external_gateway_info = some nid → get_network c nid = some n →
        ((n.provider_network_type = "midonet" →
           (PrettyRouter.get_recommendation_tr c r).1 = .ok (some "Replace")) ∧
         (n.provider_network_type ≠ "midonet" →
           (PrettyRouter.get_recommendation_tr c r).1 = .ok none))) ∧
      (r.external_gateway_info = none →
        (PrettyRouter.get_recommendation_tr c r).1 = .ok none)) := by
  constructor
  · intro h0
    simp [PrettyRouter.get_recommendation_tr, h0]
  · intro hne
    refine ⟨?_, ?_⟩
    · intro nid n hgw hget
      constructor
      · intro hmid
        simp [PrettyRouter.get_recommendation_tr, hne, hgw,
          is_legacy_network_tr, hget, hmid]
      · intro hnot
        simp [PrettyRouter.get_recommendation_tr, hne, hgw,
          is_legacy_network_tr, hget, hnot]
    · intro hgw
      simp [PrettyRouter.get_recommendation_tr, hne, hgw]

/-- C4 witness: the four router shapes evaluated on a concrete cloud. -/
theorem C4_router_recommendation_witness :
    (router_interfaces cloudOk routerEmpty).length = 0 ∧
    (PrettyRouter.get_recommendation_tr cloudOk routerEmpty).1 =
      .ok (some "No networks attached, Delete") ∧
    (router_interfaces cloudOk routerLegacyGW).length ≠ 0 ∧
    (PrettyRouter.get_recommendation_tr cloudOk routerLegacyGW).1 =
      .ok (some "Replace") ∧
    (PrettyRouter.get_recommendation_tr cloudOk routerModernGW).1 = .ok none ∧
    (PrettyRouter.get_recommendation_tr cloudOk routerNoGW).1 = .ok none := by
  refine ⟨rfl, (C4_router_recommendation cloudOk routerEmpty).1 rfl,
    by decide, ?_, ?_, ?_⟩
  · exact (((C4_router_recommendation cloudOk routerLegacyGW).2 (by decide)).1
      "netL" netLegacy rfl rfl).1 rfl
  · exact (((C4_router_recommendation cloudOk routerModernGW).2 (by decide)).1
      "netM" netModern rfl rfl).2 (by decide)
  · exact ((C4_router_recommendation cloudOk routerNoGW).2 (by decide)).2 rfl

/-- C5: a floating IP whose floating network is legacy is recommended
"Unused, Delete" when unbound and "Replace" when bound to a port; on a
non-legacy floating network there is no recommendation. -/
theorem C5_fip_recommendation (c : Cloud) (f : FloatingIP) :
    ∀ n, get_network c f.floating_network_id = some n →
      ((n.provider_network_type = "midonet" →
        ((f.port_id = none →
           (PrettyFIP.get_recommendation_tr c f).1 = .ok (some "Unused, Delete")) ∧
         (∀ p, f.port_id = some p →
           (PrettyFIP.get_recommendation_tr c f).1 = .ok (some "Replace")))) ∧
       (n.provider_network_type ≠ "midonet" →
         (PrettyFIP.get_recommendation_tr c f).1 = .ok none)) := by
  intro n hget
  refine ⟨?_, ?_⟩
  · intro hmid
    constructor
    · intro hp
      simp [PrettyFIP.get_recommendation_tr, is_legacy_network_tr, hget, hmid, hp]
    · intro p hp
      simp [PrettyFIP.get_recommendation_tr, is_legacy_network_tr, hget, hmid, hp]
  · intro hnot
    have hb : (n.provider_network_type == "midonet") = false := by simp [hnot]
    simp [PrettyFIP.get_recommendation_tr, is_legacy_network_tr, hget, hb]

/-- C5 witness: the three floating-IP shapes evaluated on a concrete
cloud. -/
theorem C5_fip_recommendation_witness :
    get_network cloudOk "netL" = some netLegacy ∧
    (PrettyFIP.get_recommendation_tr cloudOk fipUnused).1 =
      .ok (some "Unused, Delete") ∧
    (PrettyFIP.get_recommendation_tr cloudOk fipBound).1 = .ok (some "Replace") ∧
    (PrettyFIP.get_recommendation_tr cloudOk fipModern).1 = .ok none := by
  refine ⟨rfl, ?_, ?_, ?_⟩
  · exact ((C5_fip_recommendation cloudOk fipUnused netLegacy rfl).1 rfl).1 rfl
  · exact ((C5_fip_recommendation cloudOk fipBound netLegacy rfl).1 rfl).2 "p9" rfl
  · exact (C5_fip_recommendation cloudOk fipModern netModern rfl).2 (by decide)

/-- C6: `is_legacy_network` on a network object, or on an identifier that
resolves to a network, returns true exactly when the resolved network has
provider type `midonet`. -/
theorem C6_is_legacy_network (c : Cloud) (N : Network) :
    (is_legacy_network_tr c (.net N)).1 =
      .ok (N.provider_network_type == "midonet") ∧
    ((is_legacy_network_tr c (.net N)).1 = .ok true ↔
      N.provider_network_type = "midonet") ∧
    (∀ s n, get_network c s = some n →
      (is_legacy_network_tr c (.ident s)).1 =
        .ok (n.provider_network_type == "midonet") ∧
      ((is_legacy_network_tr c (.ident s)).1 = .ok true ↔
        n.provider_network_type = "midonet")) := by
  refine ⟨rfl, ?_, ?_⟩
  · simp [is_legacy_network_tr]
  · intro s n hget
    constructor
    · simp [is_legacy_network_tr, hget]
    · simp [is_legacy_network_tr, hget]

/-- C6 witness: object and identifier forms evaluated on a concrete
cloud. -/
theorem C6_is_legacy_network_witness :
    (is_legacy_network_tr cloudOk (.net netLegacy)).1 = .ok true ∧
    get_network cloudOk "netM" = some netModern ∧
    (is_legacy_network_tr cloudOk (.ident "netM")).1 = .ok false := by
  refine ⟨(C6_is_legacy_network cloudOk netLegacy).2.1.mpr rfl, rfl, ?_⟩
  have h := ((C6_is_legacy_network cloudOk netLegacy).2.2 "netM" netModern rfl).1
  simpa using h

/-- Adding a tag does not affect the privilege check. -/
theorem tm_add_tag (c : Cloud) (t : String) :
    is_tenant_manager (c.add_tag t) = is_tenant_manager c := rfl

/-- After adding the legacy tag the project is legacy. -/
theorem legacy_after_add (c : Cloud) :
    is_legacy_project (c.add_tag TAG_LEGACY) = true := by
  simp [is_legacy_project, Cloud.add_tag]

/-- Removing the legacy tag undoes adding it, when it was absent. -/
theorem remove_add_tag (c : Cloud) (h : TAG_LEGACY ∉ c.project.tags) :
    (c.add_tag TAG_LEGACY).remove_tag TAG_LEGACY = c := by
  have hf : (c.project.tags ++ [TAG_LEGACY]).filter (fun t => t != TAG_LEGACY) =
      c.project.tags := by
    rw [List.filter_append]
    have h1 : c.project.tags.filter (fun t => t != TAG_LEGACY) = c.project.tags := by
      apply List.filter_eq_self.mpr
      intro a ha
      simp only [bne_iff_ne, ne_eq, decide_eq_true_eq]
      intro hEq
      exact h (hEq ▸ ha)
    simp [h1]
  rcases c with ⟨u, pid, proj, ns, ps, rs, fs, ss, rl, ra⟩
  rcases proj with ⟨pname, ptags⟩
  simp only [Cloud.add_tag, Cloud.remove_tag] at hf ⊢
  simp_all

/-- C7: with the TenantManager role, switching to the mode the project is
already in leaves the whole state (in particular the tag set) unchanged,
prints the already-set message, and performs no tag mutation. -/
theorem C7_switch_idempotent (c : Cloud) (mode : String)
    (htm : is_tenant_manager c = true)
    (hmode : mode = networking_label c) :
    (switch_tr c mode).1 = c ∧
    (switch_tr c mode).1.project.tags = c.project.tags ∧
    Event.out ("Project is already set to " ++ mode ++ " networking") ∈
      (switch_tr c mode).2 ∧
    (∀ t, Event.tagAdd t ∉ (switch_tr c mode).2 ∧
          Event.tagRemove t ∉ (switch_tr c mode).2) := by
  have htm1 : (is_tenant_manager_tr c).1 = true := by rw [tm_tr_fst]; exact htm
  have htmev := tm_trace_events c
  subst hmode
  by_cases hlp : is_legacy_project c = true
  · have hsw : switch_tr c (networking_label c) =
        (c, Event.out "Switching project networking" :: (is_tenant_manager_tr c).2 ++
          [Event.query "get_project", Event.query "get_project",
           Event.out ("Project is already set to " ++ NAME_MIDONET ++ " networking")]) := by
      simp [switch_tr, networking_label, hlp, htm1, NAME_MIDONET]
    rw [hsw]
    refine ⟨rfl, rfl, ?_, ?_⟩
    · simp [networking_label, hlp, NAME_MIDONET]
    · intro t
      refine ⟨?_, ?_⟩ <;>
        (intro hmem
         simp at hmem
         rcases htmev _ hmem with h2 | h2 <;> simp_all)
  · have hlp2 : is_legacy_project c = false := by simpa using hlp
    have hsw : switch_tr c (networking_label c) =
        (c, Event.out "Switching project networking" :: (is_tenant_manager_tr c).2 ++
          [Event.query "get_project", Event.query "get_project",
           Event.out ("Project is already set to " ++ NAME_OVN ++ " networking")]) := by
      simp [switch_tr, networking_label, hlp2, htm1, NAME_MIDONET, NAME_OVN]
    rw [hsw]
    refine ⟨rfl, rfl, ?_, ?_⟩
    · simp [networking_label, hlp2, NAME_OVN]
    · intro t
      refine ⟨?_, ?_⟩ <;>
        (intro hmem
         simp at hmem
         rcases htmev _ hmem with h2 | h2 <;> simp_all)

/-- C7 witness: on an untagged cloud, `switch modern` is a no-op that
prints the already-set message. -/
theorem C7_switch_idempotent_witness :
    is_tenant_manager cloudOk = true ∧
    networking_label cloudOk = "modern" ∧
    (switch_tr cloudOk "modern").1 = cloudOk ∧
    Event.out "Project is already set to modern networking" ∈
      (switch_tr cloudOk "modern").2 := by
  refine ⟨rfl, rfl, ?_, ?_⟩
  · exact (C7_switch_idempotent cloudOk "modern" rfl rfl).1
  · exact (C7_switch_idempotent cloudOk "modern" rfl rfl).2.2.1

/-- C8: with the TenantManager role and the legacy tag absent,
`switch legacy` followed by `switch modern` restores the original state,
in particular the tag-absent tag set. -/
theorem C8_switch_round_trip (c : Cloud)
    (htm : is_tenant_manager c = true)
    (habs : TAG_LEGACY ∉ c.project.tags) :
    (switch_tr (switch_tr c "legacy").1 "modern").1 = c ∧
    (switch_tr (switch_tr c "legacy").1 "modern").1.project.tags =
      c.project.tags := by
  have htm1 : (is_tenant_manager_tr c).1 = true := by rw [tm_tr_fst]; exact htm
  have hlp : is_legacy_project c = false := by
    simp [is_legacy_project]
    exact habs
  have h1 : (switch_tr c "legacy").1 = c.add_tag TAG_LEGACY := by
    simp [switch_tr, htm1, hlp, NAME_MIDONET]
  have htm2 : (is_tenant_manager_tr (c.add_tag TAG_LEGACY)).1 = true := by
    rw [tm_tr_fst, tm_add_tag]
    exact htm
  have hlp2 : is_legacy_project (c.add_tag TAG_LEGACY) = true := legacy_after_add c
  have h2 : (switch_tr (c.add_tag TAG_LEGACY) "modern").1 =
      (c.add_tag TAG_LEGACY).remove_tag TAG_LEGACY := by
    simp [switch_tr, htm2, hlp2, NAME_MIDONET, NAME_OVN]
  rw [h1, h2, remove_add_tag c habs]
  exact ⟨rfl, rfl⟩

/-- C8 witness: the round trip evaluated on a concrete untagged cloud. -/
theorem C8_switch_round_trip_witness :
    is_tenant_manager cloudOk = true ∧
    TAG_LEGACY ∉ cloudOk.project.tags ∧
    (switch_tr (switch_tr cloudOk "legacy").1 "modern").1 = cloudOk :=
  ⟨rfl, by decide, (C8_switch_round_trip cloudOk rfl (by decide)).1⟩

/-- The classification comprehension propagates the first error. -/
theorem prettyresources_error (c : Cloud) (vs : List PyValue) (v : PyValue)
    (hv : v ∈ vs) (e : PyErr)
    (he : (resource_to_prettyresource_tr c v).1 = .error e) :
    ∃ e2, (prettyresources_tr c vs).1 = .error e2 := by
  induction vs with
  | nil => simp at hv
  | cons w rest ih =>
    rcases hw : resource_to_prettyresource_tr c w with ⟨res, ev⟩
    rcases res with e1 | pr
    · exact ⟨e1, by simp [prettyresources_tr, hw]⟩
    · rcases List.mem_cons.mp hv with hveq | hvrest
      · subst hveq
        rw [hw] at he
        simp at he
      · obtain ⟨e2, h2⟩ := ih hvrest
        rcases hr : prettyresources_tr c rest with ⟨res2, ev2⟩
        rw [hr] at h2
        rcases res2 with e3 | prs
        · exact ⟨e3, by simp [prettyresources_tr, hw, hr]⟩
        · simp at h2

/-- C9: feeding the classification layer a non-resource value raises
`TypeError` (both in the shared constructor guard and in the dispatcher);
a resource whose `resource_key` is not one of the four recognised kinds
raises `ValueError`; and an error on any classified value propagates out
of the row builder, so no row list is produced. -/
theorem C9_classification_errors (c : Cloud) :
    (∀ ty, PrettyResource.initCheck (.other ty) =
      .error (.typeError ("Expected openstack.resource.Resource, got " ++ ty))) ∧
    (∀ ty, (resource_to_prettyresource_tr c (.other ty)).1 =
      .error (.typeError ("Expected openstack.resource.Resource, got " ++ ty))) ∧
    (∀ r : Resource, r.resource_key ∉ query_map_keys →
      (resource_to_prettyresource_tr c (.res r)).1 =
        .error (.valueError ("Unknown resource type " ++ r.resource_key))) ∧
    (∀ vs a v, v ∈ vs →
      (∃ e, (resource_to_prettyresource_tr c v).1 = .error e) →
      ∃ e2, (resources_to_prettyrows_tr c vs a).1 = .error e2) := by
  refine ⟨fun ty => rfl, fun ty => rfl, ?_, ?_⟩
  · intro r hk
    simp [resource_to_prettyresource_tr, hk]
  · rintro vs a v hv ⟨e, he⟩
    obtain ⟨e2, h2⟩ := prettyresources_error c vs v hv e he
    rcases hr : prettyresources_tr c vs with ⟨res, ev⟩
    rw [hr] at h2
    rcases res with e3 | prs
    · exact ⟨e3, by simp [resources_to_prettyrows_tr, hr]⟩
    · simp at h2

/-- C9 witness: a plain dict and a subnet resource both fail fast, also
through the row builder. -/
theorem C9_classification_errors_witness :
    (resource_to_prettyresource_tr cloudOk (.other "dict")).1 =
      .error (.typeError "Expected openstack.resource.Resource, got dict") ∧
    (resource_to_prettyresource_tr cloudOk
        (.res (.otherRes "subnet" "s1" "subnet1"))).1 =
      .error (.valueError "Unknown resource type subnet") ∧
    (∃ e2, (resources_to_prettyrows_tr cloudOk [.other "dict"] false).1 =
      .error e2) := by
  refine ⟨?_, ?_, ?_⟩
  · exact (C9_classification_errors cloudOk).2.1 "dict"
  · exact (C9_classification_errors cloudOk).2.2.1
      (.otherRes "subnet" "s1" "subnet1") (by decide)
  · exact (C9_classification_errors cloudOk).2.2.2 [.other "dict"] false
      (.other "dict") (by simp)
      ⟨.typeError "Expected openstack.resource.Resource, got dict", rfl⟩

/-- C10: with the TenantManager role, `switch` on a value that is neither
legacy nor modern falls through both branches: state unchanged, no tag
mutation, and nothing printed beyond the initial banner. -/
theorem C10_switch_unknown_mode (c : Cloud) (networking : String)
    (htm : is_tenant_manager c = true)
    (h1 : networking ≠ NAME_MIDONET) (h2 : networking ≠ NAME_OVN) :
    switch_tr c networking =
      (c, Event.out "Switching project networking" :: (is_tenant_manager_tr c).2 ++
        [Event.query "get_project"]) ∧
    outsOf (switch_tr c networking).2 = ["Switching project networking"] ∧
    (∀ t, Event.tagAdd t ∉ (switch_tr c networking).2 ∧
          Event.tagRemove t ∉ (switch_tr c networking).2) := by
  have htm1 : (is_tenant_manager_tr c).1 = true := by rw [tm_tr_fst]; exact htm
  have htmev := tm_trace_events c
  have hb1 : (networking == NAME_MIDONET) = false := by simp [h1]
  have hb2 : (networking == NAME_OVN) = false := by simp [h2]
  have hsw : switch_tr c networking =
      (c, Event.out "Switching project networking" :: (is_tenant_manager_tr c).2 ++
        [Event.query "get_project"]) := by
    simp [switch_tr, htm1, hb1, hb2]
  refine ⟨hsw, ?_, ?_⟩
  · rw [hsw]
    have htmo := tm_trace_outs c
    simp only [outsOf, List.filterMap_cons, List.filterMap_append] at htmo ⊢
    rw [htmo]
    rfl
  · intro t
    rw [hsw]
    refine ⟨?_, ?_⟩ <;>
      (intro hmem
       simp at hmem
       rcases htmev _ hmem with h3 | h3 <;> simp_all)

/-- C10 witness: an unrecognised mode string on a concrete cloud. -/
theorem C10_switch_unknown_mode_witness :
    is_tenant_manager cloudOk = true ∧
    (switch_tr cloudOk "bogus").1 = cloudOk ∧
    outsOf (switch_tr cloudOk "bogus").2 = ["Switching project networking"] := by
  refine ⟨rfl, ?_, ?_⟩
  · rw [(C10_switch_unknown_mode cloudOk "bogus" rfl (by decide) (by decide)).1]
  · exact (C10_switch_unknown_mode cloudOk "bogus" rfl (by decide) (by decide)).2.1

end Migrate
